import Mathlib

/-!
Verification development for `pkg/insights/insightsclient/insightsclient.go`
of the insights-operator repository.

The Go code is shallowly embedded as pure Lean functions.  Effects are made
explicit:
* the identity source (`configv1client` + `ClusterVersions().Get`) is an
  input of type `LookupOutcome` (not found / failure / found);
* the HTTP round trip (`c.client.Do`) is an input of type `ExchangeOutcome`
  (transport failure, or a response with a status code and a body given as a
  byte list);
* Prometheus counter increments become an explicit list of `MetricEvent`s
  emitted by the call;
* how far the response body was read before returning is recorded as a
  `BodyDisposition`;
* Go receiver semantics are modelled faithfully: `Send` has a pointer
  receiver (its write to `c.clusterVersion` persists on the caller's
  `Client`), while `RecvReport` and `RecvSCACerts` have value receivers, so
  the `clusterVersion` write performed by `getClusterVersion` lands on the
  per-call copy and the caller's `Client` is returned unchanged.
-/

namespace InsightsClient

/-- The identity record (`configv1.ClusterVersion`), modelled by the only
field this client reads: `Spec.ClusterID`. -/
structure ClusterVersion where
  clusterID : String
deriving Repr, DecidableEq

/-- Outcome of one query to the identity source, i.e. of the
`configv1client.NewForConfig` + `ClusterVersions().Get(ctx, "version", ...)`
sequence inside `getClusterVersion`:
`notFound` abstracts `apierrors.IsNotFound(err)`, `failure` any other error
(from client construction or from the Get), `found cv` a successful Get. -/
inductive LookupOutcome where
  | notFound
  | failure
  | found (cv : ClusterVersion)
deriving Repr, DecidableEq

/-- The `Client` struct.  Of its fields, the claims depend on `maxBytes`
(int64, modelled as `Int`), `metricsName`, and the memoization field
`clusterVersion` (a nil-able pointer, modelled as `Option`).  The
`*http.Client`, `Authorizer` and `*rest.Config` handles are opaque to every
claim and are abstracted into the effect inputs of each operation. -/
structure Client where
  maxBytes : Int
  metricsName : String
  clusterVersion : Option ClusterVersion
deriving Repr, DecidableEq

/-- `New(client, maxBytes, metricsName, authorizer, gatherKubeConfig)`:
a zero `maxBytes` is replaced by the 10 MiB default; any other value
(including a negative one) is stored as given.  The fresh client has no
memoized cluster version. -/
def New (maxBytes : Int) (metricsName : String) : Client :=
  { maxBytes := if maxBytes = 0 then 10 * 1024 * 1024 else maxBytes
    metricsName := metricsName
    clusterVersion := none }

/-- `(c *Client) getClusterVersion()`: return the memoized identity if
present; otherwise query the identity source.  "Not found" maps to
`(nil, nil)` = `.ok none`; any other lookup error is propagated; on success
the identity is written to `c.clusterVersion` (on the receiver, which for a
value-receiver caller is the per-call copy) and returned.  The function
returns the receiver after the call together with the Go result pair. -/
def getClusterVersion (c : Client) (lookup : LookupOutcome) :
    Client × Except Unit (Option ClusterVersion) :=
  match c.clusterVersion with
  | some cv => (c, .ok (some cv))
  | none =>
    match lookup with
    | .notFound => (c, .ok none)
    | .failure => (c, .error ())
    | .found cv => ({ c with clusterVersion := some cv }, .ok (some cv))

/-- An HTTP response as far as this client inspects it: the status code and
the body as a byte sequence. -/
structure HttpResponse where
  status : Nat
  body : List Nat
deriving Repr, DecidableEq

/-- Outcome of `c.client.Do(req)`: either a transport-level failure before
any response (DNS, connect, TLS, ...) or a response. -/
inductive ExchangeOutcome where
  | transportFailure
  | response (r : HttpResponse)
deriving Repr, DecidableEq

/-- The errors the three operations can return, one constructor per distinct
construction site / Go dynamic type.  `authorizerError` is
`authorizer.Error`, `httpError` is the typed `HttpError`, and
`badRequest` / `unexpectedStatus` are the plain `fmt.Errorf` errors.  Each
constructor carries the response-body bytes that the error message embeds
(empty when the message embeds no body). -/
inductive InsightsError where
  | lookupFailure
  | waitingForVersion
  | prepareFailure
  | tokenFailure
  | newRequestFailure
  | transportFailure
  | authorizerError (body : List Nat)
  | httpError (statusCode : Nat) (body : List Nat)
  | badRequest (body : List Nat)
  | unexpectedStatus (statusCode : Nat) (body : List Nat)
deriving Repr, DecidableEq

/-- `IsHttpError`: the Go type switch matches exactly the `HttpError`
dynamic type. -/
def IsHttpError : InsightsError → Bool
  | .httpError _ _ => true
  | _ => false

/-- Whether the error's Go dynamic type is `authorizer.Error`. -/
def isAuthorizerError : InsightsError → Bool
  | .authorizerError _ => true
  | _ => false

/-- Whether the error is one of the generic `fmt.Errorf` status errors
(bad request or unexpected status). -/
def isGenericStatusError : InsightsError → Bool
  | .badRequest _ => true
  | .unexpectedStatus _ _ => true
  | _ => false

/-- The response-body bytes embedded in an error's message. -/
def embeddedBody : InsightsError → List Nat
  | .authorizerError b => b
  | .httpError _ b => b
  | .badRequest b => b
  | .unexpectedStatus _ b => b
  | _ => []

/-- `responseBodyLogLen = 1024`. -/
def responseBodyLogLen : Nat := 1024

/-- `responseBody(r)`: read the whole body and truncate it to
`responseBodyLogLen` bytes. -/
def responseBody (body : List Nat) : List Nat :=
  if body.length > responseBodyLogLen then body.take responseBodyLogLen else body

/-- Which Prometheus counter an increment hits. -/
inductive CounterId where
  | requestSend
  | requestRecvReport
deriving Repr, DecidableEq

/-- One `counter.WithLabelValues(client, statusCode).Inc()` call, with the
two label values (`strconv.Itoa` of the status, or `"0"`). -/
structure MetricEvent where
  counter : CounterId
  client : String
  statusCode : String
deriving Repr, DecidableEq

instance {ε α : Type} [DecidableEq ε] [DecidableEq α] : DecidableEq (Except ε α) :=
  fun a b =>
    match a, b with
    | .ok x, .ok y =>
      if h : x = y then .isTrue (by rw [h]) else .isFalse (by simp [h])
    | .error x, .error y =>
      if h : x = y then .isTrue (by rw [h]) else .isFalse (by simp [h])
    | .ok _, .error _ => .isFalse (by simp)
    | .error _, .ok _ => .isFalse (by simp)

/-- How far the operation read the HTTP response body before returning. -/
inductive BodyDisposition where
  | noResponse
  | fullyRead
  | notRead
  | handedToCaller
deriving Repr, DecidableEq

/-- Result of one `Send` call: the caller's `Client` after the call, the
returned error (`.ok ()` on the nil-error path), the counter increments
performed, and what happened to the response body. -/
structure SendOutcome where
  post : Client
  result : Except InsightsError Unit
  events : List MetricEvent
  bodyDisp : BodyDisposition
deriving Repr, DecidableEq

/-- `(c *Client) Send(ctx, endpoint, source)`.  `prepareOk` abstracts
`prepareRequest` (request construction plus `authorizer.Authorize`);
`exchange` abstracts `c.client.Do`.  Pointer receiver: the client returned
by `getClusterVersion` is the caller's client after the call.  Branches in
source order: transport failure increments the send counter with label
`"0"`; otherwise the counter is incremented once with the observed status,
then 401, 403, 400, and the out-of-`[200,300)` catch-all are classified,
else nil.  The deferred `io.Copy(io.Discard, resp.Body)` + `Close` drains
the body on every response branch. -/
def Send (c : Client) (lookup : LookupOutcome) (prepareOk : Bool)
    (exchange : ExchangeOutcome) : SendOutcome :=
  match getClusterVersion c lookup with
  | (c1, .error _) => ⟨c1, .error .lookupFailure, [], .noResponse⟩
  | (c1, .ok none) => ⟨c1, .error .waitingForVersion, [], .noResponse⟩
  | (c1, .ok (some _cv)) =>
    if !prepareOk then ⟨c1, .error .prepareFailure, [], .noResponse⟩
    else
      match exchange with
      | .transportFailure =>
        ⟨c1, .error .transportFailure,
          [⟨.requestSend, c1.metricsName, "0"⟩], .noResponse⟩
      | .response r =>
        let ev : List MetricEvent :=
          [⟨.requestSend, c1.metricsName, toString r.status⟩]
        if r.status = 401 then
          ⟨c1, .error (.authorizerError (responseBody r.body)), ev, .fullyRead⟩
        else if r.status = 403 then
          ⟨c1, .error (.authorizerError []), ev, .fullyRead⟩
        else if r.status = 400 then
          ⟨c1, .error (.badRequest (responseBody r.body)), ev, .fullyRead⟩
        else if 300 ≤ r.status ∨ r.status < 200 then
          ⟨c1, .error (.unexpectedStatus r.status (responseBody r.body)), ev, .fullyRead⟩
        else
          ⟨c1, .ok (), ev, .fullyRead⟩

/-- Result of one `RecvReport` call. -/
structure RecvReportOutcome where
  post : Client
  result : Except InsightsError HttpResponse
  events : List MetricEvent
  bodyDisp : BodyDisposition
deriving Repr, DecidableEq

/-- `(c Client) RecvReport(ctx, endpoint)`.  Value receiver: the body runs
on a copy of the caller's client, so the memoization write inside
`getClusterVersion` is lost and the caller's client is unchanged after the
call (`post := c`).  Branches in source order: transport failure increments
the recv-report counter with `"0"`; 401 and 403 increment and return an
`authorizer.Error` without touching the body; 400, 404 and the
out-of-`[200,300)` catch-all read the whole body, truncate it to 1024
bytes, increment, and return (404 as the typed `HttpError`); 200 hands the
live response to the caller with no increment; any remaining status (a
non-200 2xx) returns a plain error with no increment and the body unread. -/
def RecvReport (c : Client) (lookup : LookupOutcome) (prepareOk : Bool)
    (exchange : ExchangeOutcome) : RecvReportOutcome :=
  match getClusterVersion c lookup with
  | (_cCopy, .error _) => ⟨c, .error .lookupFailure, [], .noResponse⟩
  | (_cCopy, .ok none) => ⟨c, .error .waitingForVersion, [], .noResponse⟩
  | (_cCopy, .ok (some _cv)) =>
    if !prepareOk then ⟨c, .error .prepareFailure, [], .noResponse⟩
    else
      match exchange with
      | .transportFailure =>
        ⟨c, .error .transportFailure,
          [⟨.requestRecvReport, c.metricsName, "0"⟩], .noResponse⟩
      | .response r =>
        let ev : List MetricEvent :=
          [⟨.requestRecvReport, c.metricsName, toString r.status⟩]
        if r.status = 401 then
          ⟨c, .error (.authorizerError []), ev, .notRead⟩
        else if r.status = 403 then
          ⟨c, .error (.authorizerError []), ev, .notRead⟩
        else if r.status = 400 then
          let body := if r.body.length > 1024 then r.body.take 1024 else r.body
          ⟨c, .error (.badRequest body), ev, .fullyRead⟩
        else if r.status = 404 then
          let body := if r.body.length > 1024 then r.body.take 1024 else r.body
          ⟨c, .error (.httpError r.status body), ev, .fullyRead⟩
        else if 300 ≤ r.status ∨ r.status < 200 then
          let body := if r.body.length > 1024 then r.body.take 1024 else r.body
          ⟨c, .error (.unexpectedStatus r.status body), ev, .fullyRead⟩
        else if r.status = 200 then
          ⟨c, .ok r, [], .handedToCaller⟩
        else
          ⟨c, .error (.unexpectedStatus r.status []), [], .notRead⟩

/-- Result of one `RecvSCACerts` call: no metrics counter exists for it. -/
structure RecvSCACertsOutcome where
  post : Client
  result : Except InsightsError (List Nat)
  bodyDisp : BodyDisposition
deriving Repr, DecidableEq

/-- `(c Client) RecvSCACerts(ctx, endpoint)`.  Value receiver, like
`RecvReport`.  `tokenOk` abstracts `c.authorizer.Token()`, `newRequestOk`
abstracts `http.NewRequest`.  A status outside `[200,399]` returns
`ocmErrorMessage` = a typed `HttpError` embedding `responseBody` (which
reads the body fully); otherwise the whole body is read and returned. -/
def RecvSCACerts (c : Client) (lookup : LookupOutcome) (tokenOk : Bool)
    (newRequestOk : Bool) (exchange : ExchangeOutcome) : RecvSCACertsOutcome :=
  match getClusterVersion c lookup with
  | (_cCopy, .error _) => ⟨c, .error .lookupFailure, .noResponse⟩
  | (_cCopy, .ok none) => ⟨c, .error .waitingForVersion, .noResponse⟩
  | (_cCopy, .ok (some _cv)) =>
    if !tokenOk then ⟨c, .error .tokenFailure, .noResponse⟩
    else if !newRequestOk then ⟨c, .error .newRequestFailure, .noResponse⟩
    else
      match exchange with
      | .transportFailure => ⟨c, .error .transportFailure, .noResponse⟩
      | .response r =>
        if 399 < r.status ∨ r.status < 200 then
          ⟨c, .error (.httpError r.status (responseBody r.body)), .fullyRead⟩
        else
          ⟨c, .ok r.body, .fullyRead⟩

/-- A wall-clock instant (`time.Time`) as far as RFC3339 formatting reads
it: calendar fields plus the zone offset in minutes east of UTC.  The Go
zero time is `⟨1, 1, 1, 0, 0, 0, 0⟩`. -/
structure DateTime where
  year : Nat
  month : Nat
  day : Nat
  hour : Nat
  minute : Nat
  second : Nat
  offsetMinutes : Int
deriving Repr, DecidableEq

/-- The decimal digit character for `n` (`n ≥ 9` renders as `9`; callers
only pass `n < 10`). -/
def digitChar (n : Nat) : Char :=
  if n = 0 then '0' else if n = 1 then '1' else if n = 2 then '2'
  else if n = 3 then '3' else if n = 4 then '4' else if n = 5 then '5'
  else if n = 6 then '6' else if n = 7 then '7' else if n = 8 then '8'
  else '9'

/-- Decimal rendering of a natural number, most significant digit first. -/
def decDigits (n : Nat) : List Char :=
  if _h : n < 10 then [digitChar n]
  else decDigits (n / 10) ++ [digitChar (n % 10)]
termination_by n
decreasing_by exact Nat.div_lt_self (by omega) (by omega)

/-- Two-digit zero-padded field, as Go's `Format` renders month, day, hour,
minute, second and the offset components of RFC3339. -/
def pad2 (n : Nat) : List Char :=
  if n < 10 then '0' :: decDigits n else decDigits n

/-- Four-digit zero-padded year, as Go's `Format` renders `2006`. -/
def pad4 (n : Nat) : List Char :=
  if n < 10 then '0' :: '0' :: '0' :: decDigits n
  else if n < 100 then '0' :: '0' :: decDigits n
  else if n < 1000 then '0' :: decDigits n
  else decDigits n

/-- The `Z07:00` component of RFC3339: `Z` for UTC, otherwise a signed
`hh:mm` offset. -/
def tzChars (offsetMinutes : Int) : List Char :=
  if offsetMinutes = 0 then ['Z']
  else
    (if offsetMinutes < 0 then '-' else '+')
      :: (pad2 (offsetMinutes.natAbs / 60) ++ (':' :: pad2 (offsetMinutes.natAbs % 60)))

/-- `t.Format(time.RFC3339)`: layout `2006-01-02T15:04:05Z07:00`. -/
def rfc3339Chars (t : DateTime) : List Char :=
  pad4 t.year ++ ('-' :: (pad2 t.month ++ ('-' :: (pad2 t.day
    ++ ('T' :: (pad2 t.hour ++ (':' :: (pad2 t.minute ++ (':' :: (pad2 t.second
    ++ tzChars t.offsetMinutes))))))))))

/-- The lowercase hexadecimal digit character for `n < 16`. -/
def hexDigitChar (n : Nat) : Char :=
  if n = 10 then 'a' else if n = 11 then 'b' else if n = 12 then 'c'
  else if n = 13 then 'd' else if n = 14 then 'e' else if n = 15 then 'f'
  else digitChar n

/-- How Go's `%q` verb renders one character of the quoted string: `"` and
`\` get a backslash escape, printable ASCII passes through verbatim, and
anything else is rendered as an escape sequence (modelled as `\xhh`; the
exact escape spelling for non-printable characters is irrelevant to the
claims, which only exercise printable ASCII). -/
def goQuoteChar (ch : Char) : List Char :=
  if ch = '"' then ['\\', '"']
  else if ch = '\\' then ['\\', '\\']
  else if 32 ≤ ch.toNat ∧ ch.toNat ≤ 126 then [ch]
  else ['\\', 'x', hexDigitChar (ch.toNat / 16 % 16), hexDigitChar (ch.toNat % 16)]

/-- Go's `%q` verb on a string: a double quote, each character escaped per
`goQuoteChar`, a closing double quote. -/
def goQuoteChars (l : List Char) : List Char :=
  '"' :: ((l.map goQuoteChar).flatten ++ ['"'])

/-- A `Source`: an opaque ID, a content-type label, a creation time and the
content stream (modelled as the byte sequence the stream yields). -/
structure Source where
  id : String
  type : String
  creationTime : DateTime
  contents : List Nat
deriving Repr, DecidableEq

/-- Modelled from the spec: `LimitedReader` is code of this repository that
is not under `src/` (only its use site in `createAndWriteMIMEHeader` is).
Per the spec, "the ceiling is enforced by truncation, not error: bytes
beyond the ceiling are silently dropped from the copy".  `limitedCopy n
contents` is the byte sequence `io.Copy` transfers out of
`LimitedReader{R: contents, N: n}`: the first `n` bytes (all of them when
the stream is shorter; none when `n ≤ 0`, since a non-positive remaining
budget reads as EOF). -/
def limitedCopy (n : Int) (contents : List Nat) : List Nat :=
  contents.take n.toNat

/-- What `createAndWriteMIMEHeader` writes through the multipart writer:
the bytes of the primary (`file` / `payload.tar.gz`) part, the byte count
handed back through the channel, and the characters of the `metadata` part. -/
structure EncodedUpload where
  primaryPart : List Nat
  primaryPartBytesRead : Int
  metadataPart : List Char
deriving Repr, DecidableEq

/-- `(c *Client) createAndWriteMIMEHeader(source, mw, pw, ch)`: the primary
part is `io.Copy(fw, &LimitedReader{R: source.Contents, N: c.maxBytes})`,
whose byte count is sent on `ch`; the metadata part is
`fmt.Sprintf` of the `custom_metadata` JSON object with the `%q`-quoted
RFC3339 rendering of `source.CreationTime`. -/
def createAndWriteMIMEHeader (c : Client) (source : Source) : EncodedUpload :=
  { primaryPart := limitedCopy c.maxBytes source.contents
    primaryPartBytesRead := (limitedCopy c.maxBytes source.contents).length
    metadataPart :=
      "\x7b\"custom_metadata\":\x7b\"gathering_time\":".toList
        ++ (goQuoteChars (rfc3339Chars source.creationTime) ++ "\x7d\x7d".toList) }

/-! ### Helper lemmas -/

theorem getClusterVersion_some (c : Client) (cv : ClusterVersion) (lookup : LookupOutcome)
    (h : c.clusterVersion = some cv) : getClusterVersion c lookup = (c, .ok (some cv)) := by
  unfold getClusterVersion; rw [h]

theorem getClusterVersion_none_notFound (c : Client) (h : c.clusterVersion = none) :
    getClusterVersion c .notFound = (c, .ok none) := by
  unfold getClusterVersion; rw [h]

theorem getClusterVersion_none_found (c : Client) (cv : ClusterVersion)
    (h : c.clusterVersion = none) :
    getClusterVersion c (.found cv)
      = ({ c with clusterVersion := some cv }, .ok (some cv)) := by
  unfold getClusterVersion; rw [h]

theorem truncatedLength (l : List Nat) :
    (if l.length > 1024 then l.take 1024 else l).length ≤ 1024 := by
  split
  · simp [List.length_take]
  · omega

theorem responseBody_length_le (l : List Nat) : (responseBody l).length ≤ 1024 := by
  unfold responseBody responseBodyLogLen
  exact truncatedLength l

theorem Send_post (c : Client) (lookup : LookupOutcome) (pOk : Bool) (ex : ExchangeOutcome) :
    (Send c lookup pOk ex).post = (getClusterVersion c lookup).1 := by
  unfold Send
  rcases getClusterVersion c lookup with ⟨c1, er | o⟩
  · rfl
  · rcases o with _ | cv
    · rfl
    · cases pOk
      · rfl
      · rcases ex with _ | r
        · rfl
        · dsimp only
          split_ifs <;> rfl

theorem RecvReport_post (c : Client) (lookup : LookupOutcome) (pOk : Bool)
    (ex : ExchangeOutcome) : (RecvReport c lookup pOk ex).post = c := by
  unfold RecvReport
  rcases getClusterVersion c lookup with ⟨c1, er | o⟩
  · rfl
  · rcases o with _ | cv
    · rfl
    · cases pOk
      · rfl
      · rcases ex with _ | r
        · rfl
        · dsimp only
          split_ifs <;> rfl

theorem RecvSCACerts_post (c : Client) (lookup : LookupOutcome) (tOk rOk : Bool)
    (ex : ExchangeOutcome) : (RecvSCACerts c lookup tOk rOk ex).post = c := by
  unfold RecvSCACerts
  rcases getClusterVersion c lookup with ⟨c1, er | o⟩
  · rfl
  · rcases o with _ | cv
    · rfl
    · cases tOk
      · rfl
      · cases rOk
        · rfl
        · rcases ex with _ | r
          · rfl
          · dsimp only
            split_ifs <;> rfl

/-- The characters that `%q` passes through verbatim: printable ASCII other
than the double quote and the backslash. -/
def safeChar (ch : Char) : Prop :=
  ch ≠ '"' ∧ ch ≠ '\\' ∧ 32 ≤ ch.toNat ∧ ch.toNat ≤ 126

instance : DecidablePred safeChar := fun ch => by
  unfold safeChar; infer_instance

theorem digitChar_safe (n : Nat) : safeChar (digitChar n) := by
  unfold digitChar; split_ifs <;> decide

theorem decDigits_safe (n : Nat) : ∀ ch ∈ decDigits n, safeChar ch := by
  induction n using Nat.strong_induction_on with
  | _ n ih =>
    rw [decDigits]
    split_ifs with h
    · intro ch hc
      rw [List.mem_singleton] at hc
      subst hc
      exact digitChar_safe n
    · intro ch hc
      rw [List.mem_append, List.mem_singleton] at hc
      rcases hc with hc | hc
      · exact ih (n / 10) (Nat.div_lt_self (by omega) (by omega)) ch hc
      · subst hc
        exact digitChar_safe _

theorem safe_append {l1 l2 : List Char} (h1 : ∀ ch ∈ l1, safeChar ch)
    (h2 : ∀ ch ∈ l2, safeChar ch) : ∀ ch ∈ l1 ++ l2, safeChar ch := by
  intro ch hc
  rcases List.mem_append.mp hc with hc | hc
  · exact h1 ch hc
  · exact h2 ch hc

theorem safe_cons {a : Char} {l : List Char} (ha : safeChar a)
    (h : ∀ ch ∈ l, safeChar ch) : ∀ ch ∈ a :: l, safeChar ch := by
  intro ch hc
  rcases List.mem_cons.mp hc with hc | hc
  · subst hc; exact ha
  · exact h ch hc

theorem pad2_safe (n : Nat) : ∀ ch ∈ pad2 n, safeChar ch := by
  unfold pad2
  split_ifs
  · exact safe_cons (by decide) (decDigits_safe n)
  · exact decDigits_safe n

theorem pad4_safe (n : Nat) : ∀ ch ∈ pad4 n, safeChar ch := by
  unfold pad4
  split_ifs <;>
    first
      | exact decDigits_safe n
      | exact safe_cons (by decide) (decDigits_safe n)
      | exact safe_cons (by decide) (safe_cons (by decide) (decDigits_safe n))
      | exact safe_cons (by decide)
          (safe_cons (by decide) (safe_cons (by decide) (decDigits_safe n)))

theorem tzChars_safe (m : Int) : ∀ ch ∈ tzChars m, safeChar ch := by
  unfold tzChars
  split_ifs <;>
    first
      | (intro ch hc; rw [List.mem_singleton] at hc; subst hc; decide)
      | exact safe_cons (by decide)
          (safe_append (pad2_safe _) (safe_cons (by decide) (pad2_safe _)))

theorem rfc3339Chars_safe (t : DateTime) : ∀ ch ∈ rfc3339Chars t, safeChar ch := by
  unfold rfc3339Chars
  exact safe_append (pad4_safe _) (safe_cons (by decide) (safe_append (pad2_safe _)
    (safe_cons (by decide) (safe_append (pad2_safe _) (safe_cons (by decide)
    (safe_append (pad2_safe _) (safe_cons (by decide) (safe_append (pad2_safe _)
    (safe_cons (by decide) (safe_append (pad2_safe _) (tzChars_safe _)))))))))))

theorem goQuoteChar_of_safe {ch : Char} (h : safeChar ch) : goQuoteChar ch = [ch] := by
  obtain ⟨h1, h2, h3, h4⟩ := h
  unfold goQuoteChar
  rw [if_neg h1, if_neg h2, if_pos ⟨h3, h4⟩]

theorem flatten_map_goQuoteChar {l : List Char} (h : ∀ ch ∈ l, safeChar ch) :
    (l.map goQuoteChar).flatten = l := by
  induction l with
  | nil => rfl
  | cons a t ih =>
    rw [List.map_cons, List.flatten_cons, goQuoteChar_of_safe (h a (List.mem_cons_self a t)),
      ih (fun ch hc => h ch (List.mem_cons_of_mem a hc))]
    rfl

/-! ### Claim theorems -/

/-- C1: when the identity lookup reports "resource not found"
(`getClusterVersion` returns a nil identity with no error, i.e. the client
has no memoized identity and the lookup outcome is `notFound`), `Send`,
`RecvReport` and `RecvSCACerts` all return exactly the sentinel
`ErrWaitingForVersion` — hence never a generic, authorization, or
HTTP-typed error. -/
theorem notFound_yields_waitingForVersion (c : Client) (pOk pOk2 tOk rOk : Bool)
    (ex ex2 ex3 : ExchangeOutcome) (h : c.clusterVersion = none) :
    (Send c .notFound pOk ex).result = .error .waitingForVersion ∧
    (RecvReport c .notFound pOk2 ex2).result = .error .waitingForVersion ∧
    (RecvSCACerts c .notFound tOk rOk ex3).result = .error .waitingForVersion := by
  refine ⟨?_, ?_, ?_⟩
  · unfold Send
    rw [getClusterVersion_none_notFound c h]
  · unfold RecvReport
    rw [getClusterVersion_none_notFound c h]
  · unfold RecvSCACerts
    rw [getClusterVersion_none_notFound c h]

/-- Witness for C1 at a freshly constructed client. -/
theorem notFound_yields_waitingForVersion_witness :
    (Send (New 0 "insights") .notFound true .transportFailure).result
      = .error .waitingForVersion ∧
    (RecvReport (New 0 "insights") .notFound true .transportFailure).result
      = .error .waitingForVersion ∧
    (RecvSCACerts (New 0 "insights") .notFound true true .transportFailure).result
      = .error .waitingForVersion :=
  notFound_yields_waitingForVersion (New 0 "insights") true true true true
    .transportFailure .transportFailure .transportFailure rfl

/-- C4: on a 404 response, `RecvReport` returns the typed `HttpError`
carrying status code 404 (recognized by `IsHttpError`), while `Send` on the
same 404 returns the generic unexpected-status `fmt.Errorf` error, which
`IsHttpError` does not recognize. -/
theorem status404_asymmetry (c : Client) (cv : ClusterVersion) (lookup : LookupOutcome)
    (body : List Nat) (h : c.clusterVersion = some cv) :
    (RecvReport c lookup true (.response ⟨404, body⟩)).result
      = .error (.httpError 404 (if body.length > 1024 then body.take 1024 else body)) ∧
    (∀ e, (RecvReport c lookup true (.response ⟨404, body⟩)).result = .error e →
      IsHttpError e = true) ∧
    (Send c lookup true (.response ⟨404, body⟩)).result
      = .error (.unexpectedStatus 404 (responseBody body)) ∧
    (∀ e, (Send c lookup true (.response ⟨404, body⟩)).result = .error e →
      IsHttpError e = false) := by
  have hR : (RecvReport c lookup true (.response ⟨404, body⟩)).result
      = .error (.httpError 404 (if body.length > 1024 then body.take 1024 else body)) := by
    unfold RecvReport
    rw [getClusterVersion_some c cv lookup h]
    norm_num
  have hS : (Send c lookup true (.response ⟨404, body⟩)).result
      = .error (.unexpectedStatus 404 (responseBody body)) := by
    unfold Send
    rw [getClusterVersion_some c cv lookup h]
    norm_num
  refine ⟨hR, ?_, hS, ?_⟩
  · intro e he
    rw [hR] at he
    injection he with he'
    rw [← he']
    rfl
  · intro e he
    rw [hS] at he
    injection he with he'
    rw [← he']
    rfl

/-- Witness for C4 on a memoized client and a one-byte body. -/
theorem status404_asymmetry_witness :
    (RecvReport (Client.mk 1 "insights" (some ⟨"cid"⟩)) .notFound true
        (.response ⟨404, [9]⟩)).result = .error (.httpError 404 [9]) ∧
    (Send (Client.mk 1 "insights" (some ⟨"cid"⟩)) .notFound true
        (.response ⟨404, [9]⟩)).result = .error (.unexpectedStatus 404 [9]) := by
  have h := status404_asymmetry (Client.mk 1 "insights" (some ⟨"cid"⟩)) ⟨"cid"⟩
    .notFound [9] rfl
  exact ⟨h.1, h.2.2.1⟩

/-- C5: on a 401 or 403 response, both `Send` and `RecvReport` return an
`authorizer.Error`, which is neither the typed `HttpError` nor one of the
generic `fmt.Errorf` status errors. -/
theorem status401_403_authorization (c : Client) (cv : ClusterVersion)
    (lookup : LookupOutcome) (body : List Nat) (s : Nat)
    (h : c.clusterVersion = some cv) (hs : s = 401 ∨ s = 403) :
    (∃ b, (Send c lookup true (.response ⟨s, body⟩)).result
      = .error (.authorizerError b)) ∧
    (∃ b, (RecvReport c lookup true (.response ⟨s, body⟩)).result
      = .error (.authorizerError b)) ∧
    (∀ e, (Send c lookup true (.response ⟨s, body⟩)).result = .error e →
      isAuthorizerError e = true ∧ IsHttpError e = false ∧ isGenericStatusError e = false) ∧
    (∀ e, (RecvReport c lookup true (.response ⟨s, body⟩)).result = .error e →
      isAuthorizerError e = true ∧ IsHttpError e = false ∧ isGenericStatusError e = false) := by
  rcases hs with rfl | rfl
  · have hS : (Send c lookup true (.response ⟨401, body⟩)).result
        = .error (.authorizerError (responseBody body)) := by
      unfold Send
      rw [getClusterVersion_some c cv lookup h]
      norm_num
    have hR : (RecvReport c lookup true (.response ⟨401, body⟩)).result
        = .error (.authorizerError []) := by
      unfold RecvReport
      rw [getClusterVersion_some c cv lookup h]
      norm_num
    refine ⟨⟨_, hS⟩, ⟨_, hR⟩, ?_, ?_⟩
    · intro e he
      rw [hS] at he
      injection he with he'
      rw [← he']
      exact ⟨rfl, rfl, rfl⟩
    · intro e he
      rw [hR] at he
      injection he with he'
      rw [← he']
      exact ⟨rfl, rfl, rfl⟩
  · have hS : (Send c lookup true (.response ⟨403, body⟩)).result
        = .error (.authorizerError []) := by
      unfold Send
      rw [getClusterVersion_some c cv lookup h]
      norm_num
    have hR : (RecvReport c lookup true (.response ⟨403, body⟩)).result
        = .error (.authorizerError []) := by
      unfold RecvReport
      rw [getClusterVersion_some c cv lookup h]
      norm_num
    refine ⟨⟨_, hS⟩, ⟨_, hR⟩, ?_, ?_⟩
    · intro e he
      rw [hS] at he
      injection he with he'
      rw [← he']
      exact ⟨rfl, rfl, rfl⟩
    · intro e he
      rw [hR] at he
      injection he with he'
      rw [← he']
      exact ⟨rfl, rfl, rfl⟩

/-- Witness for C5 at status 401. -/
theorem status401_403_authorization_witness :
    (∃ b, (Send (Client.mk 1 "insights" (some ⟨"cid"⟩)) .notFound true
      (.response ⟨401, [9]⟩)).result = .error (.authorizerError b)) ∧
    (∃ b, (RecvReport (Client.mk 1 "insights" (some ⟨"cid"⟩)) .notFound true
      (.response ⟨401, [9]⟩)).result = .error (.authorizerError b)) := by
  have h := status401_403_authorization (Client.mk 1 "insights" (some ⟨"cid"⟩)) ⟨"cid"⟩
    .notFound [9] 401 rfl (Or.inl rfl)
  exact ⟨h.1, h.2.1⟩

/-- C2 counterexample: a completed `RecvReport` call whose response has the
success status 200 performs no counter increment at all, refuting "exactly
one increment ... for every terminal outcome, including the success
outcome". -/
theorem recvReport_200_increments_nothing :
    (RecvReport (New 0 "insights") (.found ⟨"cid"⟩) true (.response ⟨200, [7]⟩)).result
      = .ok ⟨200, [7]⟩ ∧
    (RecvReport (New 0 "insights") (.found ⟨"cid"⟩) true (.response ⟨200, [7]⟩)).events
      = [] :=
  ⟨rfl, rfl⟩

/-- C2 amended: for every call that reaches the HTTP exchange, `Send`
increments `counterRequestSend` exactly once on every terminal outcome —
with the observed status code as label, or `"0"` on transport failure.
`RecvReport` increments `counterRequestRecvReport` exactly once on
transport failure and on every response with a status outside `[200,300)`,
but performs no increment for any status in `[200,300)`, including the
success status 200. -/
theorem metrics_increment_amended (c : Client) (cv : ClusterVersion)
    (lookup : LookupOutcome) (r : HttpResponse) (h : c.clusterVersion = some cv) :
    (Send c lookup true (.response r)).events
      = [⟨.requestSend, c.metricsName, toString r.status⟩] ∧
    (Send c lookup true .transportFailure).events
      = [⟨.requestSend, c.metricsName, "0"⟩] ∧
    (RecvReport c lookup true .transportFailure).events
      = [⟨.requestRecvReport, c.metricsName, "0"⟩] ∧
    (r.status < 200 ∨ 300 ≤ r.status →
      (RecvReport c lookup true (.response r)).events
        = [⟨.requestRecvReport, c.metricsName, toString r.status⟩]) ∧
    (200 ≤ r.status ∧ r.status < 300 →
      (RecvReport c lookup true (.response r)).events = []) := by
  refine ⟨?_, ?_, ?_, ?_, ?_⟩
  · unfold Send
    rw [getClusterVersion_some c cv lookup h]
    dsimp only
    rw [if_neg (show ¬((!true) = true) by decide)]
    split_ifs <;> rfl
  · unfold Send
    rw [getClusterVersion_some c cv lookup h]
    dsimp only
    rw [if_neg (show ¬((!true) = true) by decide)]
  · unfold RecvReport
    rw [getClusterVersion_some c cv lookup h]
    dsimp only
    rw [if_neg (show ¬((!true) = true) by decide)]
  · intro hr
    unfold RecvReport
    rw [getClusterVersion_some c cv lookup h]
    dsimp only
    rw [if_neg (show ¬((!true) = true) by decide)]
    split_ifs <;> first | rfl | omega
  · intro hr
    unfold RecvReport
    rw [getClusterVersion_some c cv lookup h]
    dsimp only
    rw [if_neg (show ¬((!true) = true) by decide)]
    split_ifs <;> first | rfl | omega

/-- Witness for C2-amended on a memoized client and a 500 response. -/
theorem metrics_increment_amended_witness :
    (Send (Client.mk 1 "insights" (some ⟨"cid"⟩)) .notFound true
      (.response ⟨500, []⟩)).events
        = [⟨.requestSend, "insights", "500"⟩] ∧
    (RecvReport (Client.mk 1 "insights" (some ⟨"cid"⟩)) .notFound true
      (.response ⟨500, []⟩)).events
        = [⟨.requestRecvReport, "insights", "500"⟩] := by
  have h := metrics_increment_amended (Client.mk 1 "insights" (some ⟨"cid"⟩)) ⟨"cid"⟩
    .notFound ⟨500, []⟩ rfl
  exact ⟨h.1, h.2.2.2.1 (by decide)⟩

/-- C3 counterexample: `RecvReport` has a value receiver, so the identity
it successfully resolves is stored only on the per-call copy of the
`Client`: after a fully successful `RecvReport` the caller's client still
has no memoized identity, and a second call consults the identity source
again (here the second lookup fails, and that failure — not the previously
resolved identity — is what the call returns). -/
theorem recvReport_does_not_memoize :
    (RecvReport (New 0 "insights") (.found ⟨"cid"⟩) true (.response ⟨200, []⟩)).result
      = .ok ⟨200, []⟩ ∧
    (RecvReport (New 0 "insights") (.found ⟨"cid"⟩) true
      (.response ⟨200, []⟩)).post.clusterVersion = none ∧
    (RecvReport ((RecvReport (New 0 "insights") (.found ⟨"cid"⟩) true
        (.response ⟨200, []⟩)).post) .failure true (.response ⟨200, []⟩)).result
      = .error .lookupFailure :=
  ⟨rfl, rfl, rfl⟩

/-- C3 amended: an identity resolved by `Send` (pointer receiver) is stored
on the Client, and every call on a Client that already holds a stored
identity returns it without consulting the identity source (the outcome is
independent of the lookup) and leaves the Client unchanged.  `RecvReport`
and `RecvSCACerts` run on a per-call copy, so an identity they resolve is
not stored on the caller's Client. -/
theorem identity_memoization_amended (c cM : Client) (cv cvM : ClusterVersion)
    (lk lk' : LookupOutcome) (pOk tOk rOk : Bool) (ex : ExchangeOutcome)
    (hnone : c.clusterVersion = none) (hsome : cM.clusterVersion = some cvM) :
    (Send c (.found cv) pOk ex).post.clusterVersion = some cv ∧
    (RecvReport c (.found cv) pOk ex).post = c ∧
    (RecvSCACerts c (.found cv) tOk rOk ex).post = c ∧
    Send cM lk pOk ex = Send cM lk' pOk ex ∧
    RecvReport cM lk pOk ex = RecvReport cM lk' pOk ex ∧
    RecvSCACerts cM lk tOk rOk ex = RecvSCACerts cM lk' tOk rOk ex ∧
    (Send cM lk pOk ex).post = cM := by
  refine ⟨?_, RecvReport_post c (.found cv) pOk ex, RecvSCACerts_post c (.found cv) tOk rOk ex,
    ?_, ?_, ?_, ?_⟩
  · rw [Send_post, getClusterVersion_none_found c cv hnone]
  · unfold Send
    rw [getClusterVersion_some cM cvM lk hsome, getClusterVersion_some cM cvM lk' hsome]
  · unfold RecvReport
    rw [getClusterVersion_some cM cvM lk hsome, getClusterVersion_some cM cvM lk' hsome]
  · unfold RecvSCACerts
    rw [getClusterVersion_some cM cvM lk hsome, getClusterVersion_some cM cvM lk' hsome]
  · rw [Send_post, getClusterVersion_some cM cvM lk hsome]

/-- Witness for C3-amended on two concrete clients. -/
theorem identity_memoization_amended_witness :
    (Send (New 0 "insights") (.found ⟨"cid"⟩) true .transportFailure).post.clusterVersion
      = some ⟨"cid"⟩ ∧
    RecvReport (Client.mk 1 "insights" (some ⟨"cid"⟩)) .notFound true .transportFailure
      = RecvReport (Client.mk 1 "insights" (some ⟨"cid"⟩)) .failure true .transportFailure := by
  have h := identity_memoization_amended (New 0 "insights")
    (Client.mk 1 "insights" (some ⟨"cid"⟩)) ⟨"cid"⟩ ⟨"cid"⟩ .notFound .failure
    true true true .transportFailure rfl rfl
  exact ⟨h.1, h.2.2.2.2.1⟩

/-- C6: for a Client whose byte ceiling is `C`, the encoded primary
multipart part equals the source content byte for byte when the content is
at most `C` bytes long, and consists of exactly the first `C` bytes of the
content (silent truncation, no error) when the content is longer. -/
theorem primary_part_ceiling (c : Client) (C : Nat) (source : Source)
    (hc : c.maxBytes = (C : Int)) :
    (source.contents.length ≤ C →
      (createAndWriteMIMEHeader c source).primaryPart = source.contents) ∧
    (C < source.contents.length →
      (createAndWriteMIMEHeader c source).primaryPart = source.contents.take C ∧
      (createAndWriteMIMEHeader c source).primaryPart.length = C) := by
  constructor
  · intro hle
    show limitedCopy c.maxBytes source.contents = source.contents
    unfold limitedCopy
    rw [hc, Int.toNat_natCast]
    exact List.take_of_length_le hle
  · intro hlt
    constructor
    · show limitedCopy c.maxBytes source.contents = source.contents.take C
      unfold limitedCopy
      rw [hc, Int.toNat_natCast]
    · show (limitedCopy c.maxBytes source.contents).length = C
      unfold limitedCopy
      rw [hc, Int.toNat_natCast, List.length_take]
      omega

/-- Witness for C6: ceiling 3, a five-byte content stream. -/
theorem primary_part_ceiling_witness :
    (createAndWriteMIMEHeader (Client.mk 3 "insights" none)
      (Source.mk "id" "application/gzip" ⟨2023, 1, 1, 0, 0, 0, 0⟩ [1, 2, 3, 4, 5])).primaryPart
      = [1, 2, 3] :=
  ((primary_part_ceiling (Client.mk 3 "insights" none) 3
    (Source.mk "id" "application/gzip" ⟨2023, 1, 1, 0, 0, 0, 0⟩ [1, 2, 3, 4, 5])
    rfl).2 (by decide)).1

/-- C7: for every Source and every creation time (the zero time included),
the metadata part written by the upload encoder is exactly the JSON object
with a single `custom_metadata.gathering_time` field holding the RFC3339
rendering of the creation time — the `%q` quoting adds only the enclosing
double quotes, since RFC3339 output contains no character that needs
escaping. -/
theorem metadata_part_exact (c : Client) (source : Source) :
    (createAndWriteMIMEHeader c source).metadataPart =
      "\x7b\"custom_metadata\":\x7b\"gathering_time\":\"".toList
        ++ (rfc3339Chars source.creationTime ++ "\"\x7d\x7d".toList) := by
  show "\x7b\"custom_metadata\":\x7b\"gathering_time\":".toList
      ++ (goQuoteChars (rfc3339Chars source.creationTime) ++ "\x7d\x7d".toList) = _
  rw [goQuoteChars, flatten_map_goQuoteChar (rfc3339Chars_safe source.creationTime)]
  have h1 : ("\x7b\"custom_metadata\":\x7b\"gathering_time\":\"" : String).toList
      = ("\x7b\"custom_metadata\":\x7b\"gathering_time\":" : String).toList ++ ['"'] := by
    decide
  have h2 : ('"' :: ("\x7d\x7d" : String).toList) = ("\"\x7d\x7d" : String).toList := by
    decide
  rw [h1, ← h2]
  simp [List.append_assoc]

/-- C10 counterexample: `New` replaces only a ceiling of exactly 0 by the
default; a negative `maxBytes` is stored as given, so a Client can hold a
non-positive byte ceiling. -/
theorem new_negative_ceiling :
    (New (-7) "insights").maxBytes = -7 ∧ (New (-7) "insights").maxBytes < 0 := by
  refine ⟨rfl, by decide⟩

/-- C10 amended: `New` maps a zero `maxBytes` to the 10 MiB default
(10485760) and stores every non-zero value unchanged; consequently the
stored ceiling is positive whenever the requested ceiling is non-negative,
but a negative request yields a negative ceiling. -/
theorem new_ceiling_amended (m : Int) (name : String) :
    (New 0 name).maxBytes = 10485760 ∧
    (m ≠ 0 → (New m name).maxBytes = m) ∧
    (0 ≤ m → 0 < (New m name).maxBytes) := by
  refine ⟨rfl, ?_, ?_⟩
  · intro hm
    show (if m = 0 then 10 * 1024 * 1024 else m) = m
    rw [if_neg hm]
  · intro hm
    show 0 < (if m = 0 then 10 * 1024 * 1024 else m)
    split_ifs with h0
    · decide
    · omega

/-- Witness for C10-amended at `maxBytes = 5`. -/
theorem new_ceiling_amended_witness :
    (New 5 "insights").maxBytes = 5 ∧ 0 < (New 5 "insights").maxBytes :=
  ⟨(new_ceiling_amended 5 "insights").2.1 (by decide),
    (new_ceiling_amended 5 "insights").2.2 (by decide)⟩

theorem send_error_bounded (c : Client) (lookup : LookupOutcome) (pOk : Bool)
    (ex : ExchangeOutcome) :
    ∀ e, (Send c lookup pOk ex).result = .error e → (embeddedBody e).length ≤ 1024 := by
  intro e
  unfold Send
  rcases getClusterVersion c lookup with ⟨c1, er | o⟩
  · intro he; injection he with h1; subst h1; decide
  · rcases o with _ | cv
    · intro he; injection he with h1; subst h1; decide
    · cases pOk
      · intro he; injection he with h1; subst h1; decide
      · rcases ex with _ | r
        · intro he; injection he with h1; subst h1; decide
        · dsimp only
          rw [if_neg (show ¬((!true) = true) by decide)]
          split_ifs <;> intro he
          · injection he with h1; subst h1; exact responseBody_length_le _
          · injection he with h1; subst h1; decide
          · injection he with h1; subst h1; exact responseBody_length_le _
          · injection he with h1; subst h1; exact responseBody_length_le _
          · simp at he

theorem recvReport_error_bounded (c : Client) (lookup : LookupOutcome) (pOk : Bool)
    (ex : ExchangeOutcome) :
    ∀ e, (RecvReport c lookup pOk ex).result = .error e → (embeddedBody e).length ≤ 1024 := by
  intro e
  unfold RecvReport
  rcases getClusterVersion c lookup with ⟨c1, er | o⟩
  · intro he; injection he with h1; subst h1; decide
  · rcases o with _ | cv
    · intro he; injection he with h1; subst h1; decide
    · cases pOk
      · intro he; injection he with h1; subst h1; decide
      · rcases ex with _ | r
        · intro he; injection he with h1; subst h1; decide
        · dsimp only
          rw [if_neg (show ¬((!true) = true) by decide)]
          split_ifs <;> intro he <;>
            first
              | exact he.elim
              | (injection he with h1; subst h1
                 first
                   | decide
                   | exact truncatedLength _
                   | (simp only [embeddedBody, List.length_take, List.length_nil]; omega))

theorem recvSCACerts_error_bounded (c : Client) (lookup : LookupOutcome) (tOk rOk : Bool)
    (ex : ExchangeOutcome) :
    ∀ e, (RecvSCACerts c lookup tOk rOk ex).result = .error e →
      (embeddedBody e).length ≤ 1024 := by
  intro e
  unfold RecvSCACerts
  rcases getClusterVersion c lookup with ⟨c1, er | o⟩
  · intro he; injection he with h1; subst h1; decide
  · rcases o with _ | cv
    · intro he; injection he with h1; subst h1; decide
    · cases tOk
      · intro he; injection he with h1; subst h1; decide
      · cases rOk
        · intro he; injection he with h1; subst h1; decide
        · rcases ex with _ | r
          · intro he; injection he with h1; subst h1; decide
          · dsimp only
            rw [if_neg (show ¬((!true) = true) by decide),
              if_neg (show ¬((!true) = true) by decide)]
            split_ifs <;> intro he
            · injection he with h1; subst h1; exact responseBody_length_le _
            · simp at he

/-- C8: whenever `Send`, `RecvReport` or `RecvSCACerts` returns an error,
the response-body text embedded in that error is at most 1024 bytes long,
even when the server's response body is larger. -/
theorem error_body_bounded (c : Client) (lookup : LookupOutcome) (pOk tOk rOk : Bool)
    (ex : ExchangeOutcome) (e e2 e3 : InsightsError) :
    ((Send c lookup pOk ex).result = .error e → (embeddedBody e).length ≤ 1024) ∧
    ((RecvReport c lookup pOk ex).result = .error e2 → (embeddedBody e2).length ≤ 1024) ∧
    ((RecvSCACerts c lookup tOk rOk ex).result = .error e3 →
      (embeddedBody e3).length ≤ 1024) :=
  ⟨send_error_bounded c lookup pOk ex e, recvReport_error_bounded c lookup pOk ex e2,
    recvSCACerts_error_bounded c lookup tOk rOk ex e3⟩

/-- Witness for C8 on a 400 response. -/
theorem error_body_bounded_witness :
    (embeddedBody (InsightsError.badRequest [1, 2])).length ≤ 1024 :=
  (error_body_bounded (New 0 "insights") (.found ⟨"cid"⟩) true true true
    (.response ⟨400, [1, 2]⟩) (.badRequest [1, 2]) (.badRequest [1, 2])
    (.badRequest [1, 2])).1 rfl

/-- C9 counterexample: `RecvReport` returns from its 401 branch without
reading the response body at all, refuting "on every outcome branch the
response body is fully read, except RecvReport's status-200 branch". -/
theorem recvReport_401_body_not_read :
    (RecvReport (New 0 "insights") (.found ⟨"cid"⟩) true
      (.response ⟨401, [9]⟩)).bodyDisp = .notRead :=
  rfl

/-- C9 amended: `Send` fully drains the response body on every response
branch (via its deferred discard-copy), and `RecvSCACerts` fully reads it
on both of its branches; `RecvReport` fully reads the body on its 400, 404
and other-non-2xx branches, hands it to the caller unread on the 200
branch, and does not read it at all on the 401, 403 and non-200 2xx
branches. -/
theorem body_drain_amended (c : Client) (cv : ClusterVersion) (lookup : LookupOutcome)
    (r : HttpResponse) (h : c.clusterVersion = some cv) :
    (Send c lookup true (.response r)).bodyDisp = .fullyRead ∧
    (RecvSCACerts c lookup true true (.response r)).bodyDisp = .fullyRead ∧
    (RecvReport c lookup true (.response r)).bodyDisp =
      (if r.status = 401 ∨ r.status = 403 then .notRead
       else if r.status < 200 ∨ 300 ≤ r.status then .fullyRead
       else if r.status = 200 then .handedToCaller
       else .notRead) := by
  refine ⟨?_, ?_, ?_⟩
  · unfold Send
    rw [getClusterVersion_some c cv lookup h]
    dsimp only
    rw [if_neg (show ¬((!true) = true) by decide)]
    split_ifs <;> rfl
  · unfold RecvSCACerts
    rw [getClusterVersion_some c cv lookup h]
    dsimp only
    rw [if_neg (show ¬((!true) = true) by decide),
      if_neg (show ¬((!true) = true) by decide)]
    split_ifs <;> rfl
  · unfold RecvReport
    rw [getClusterVersion_some c cv lookup h]
    dsimp only
    rw [if_neg (show ¬((!true) = true) by decide)]
    split_ifs <;> first | rfl | omega

/-- Witness for C9-amended on a 404 response. -/
theorem body_drain_amended_witness :
    (Send (Client.mk 1 "insights" (some ⟨"cid"⟩)) .notFound true
      (.response ⟨404, [9]⟩)).bodyDisp = .fullyRead ∧
    (RecvReport (Client.mk 1 "insights" (some ⟨"cid"⟩)) .notFound true
      (.response ⟨404, [9]⟩)).bodyDisp = .fullyRead := by
  have h := body_drain_amended (Client.mk 1 "insights" (some ⟨"cid"⟩)) ⟨"cid"⟩
    .notFound ⟨404, [9]⟩ rfl
  refine ⟨h.1, ?_⟩
  rw [h.2.2]
  decide

end InsightsClient
